import Mathlib

/-!
RoboHire front-end: the timed interview session.

A shallow embedding of the session logic of the React front-end:

* `context/InterviewContext.js` (InterviewProvider: nextQuestion, saveAnswer, resetInterview),
* `pages/InterviewRoom.js` (the timer effect, handleAutoSubmit, handleSkip,
  handleEndInterview, handleLogout, toggleRecording),
* `pages/FeedbackReport.js` (fetchFeedback),
* `pages/Dashboard.js` (handleStartInterview),
* `services/interviewAPI.js` and `services/api.js` (the requests behind the remote calls).

A handler of a React component reads the values of the render it was created in and issues
calls: state setters, context functions, router navigation, remote requests. The calls of one
handler are queued and take effect in the order they were issued. The embedding follows that:
a handler is a function from the state it reads to the list of calls it issues (`List Call`),
and `run` applies such a list to the state, call by call.
-/

namespace RoboHire

/-- The object that saveAnswer stores, written `{ question, answer }` in the source. The
question is `questions[currentQuestion]`, which is undefined (`none`) when the index is
outside the array. -/
structure Answer where
  question : Option String
  answer : String
deriving DecidableEq, Repr

/-- The body of a successful generate-questions response: `response.questions` and
`response.interviewId`. -/
structure QuestionSet where
  questions : List String
  interviewId : Option String
deriving DecidableEq, Repr

/-- The report returned by submitAnswers. The pages only store and display it, so it is kept
as an uninterpreted text. -/
abbrev Report := String

/-- The state the pages read and write: the InterviewProvider context, the local state of the
three pages, the state exposed by the speech recognition hook, and the current route. -/
structure App where
  /-- InterviewContext.js line 6. -/
  currentQuestion : Nat
  /-- InterviewContext.js line 7. -/
  questions : List String
  /-- InterviewContext.js line 14. -/
  answers : List Answer
  /-- InterviewContext.js line 15; `none` is null. -/
  interviewId : Option String
  /-- InterviewRoom.js line 14. The interval callback computes `prev - 1` on it, so it is an
  integer. -/
  timeLeft : Int
  /-- InterviewRoom.js line 15. -/
  isLoading : Bool
  /-- The text buffer of useSpeechRecognition. -/
  transcript : String
  /-- The listening flag of useSpeechRecognition. -/
  isListening : Bool
  /-- Dashboard.js line 13. -/
  resumeText : String
  /-- Dashboard.js line 14. -/
  generatingQuestions : Bool
  /-- FeedbackReport.js line 10; `none` is null. -/
  feedback : Option Report
  /-- FeedbackReport.js line 11. -/
  loading : Bool
  /-- The location the router shows. -/
  route : String
deriving DecidableEq, Repr

/-- The calls a handler issues. `appendAnswer a` is `setAnswers(prev => [...prev, a])`, the
functional update of saveAnswer; `setAnswers l` is a plain `setAnswers(l)`. -/
inductive Call where
  | stopListening
  | startListening
  | resetTranscript
  | setCurrentQuestion (n : Nat)
  | appendAnswer (a : Answer)
  | setAnswers (l : List Answer)
  | setQuestions (qs : List String)
  | setInterviewId (id : Option String)
  | setTimeLeft (n : Int)
  | setIsLoading (b : Bool)
  | setGeneratingQuestions (b : Bool)
  | setFeedback (r : Option Report)
  | setLoading (b : Bool)
  | navigate (path : String)
  | generateQuestions (resumeText : String) (userId : Option String)
  | submitAnswers (interviewId : Option String) (answers : List Answer)
  | alert (message : String)
  | consoleError (message : String)
  | logout
deriving DecidableEq, Repr

/-- Modelled from the spec: the source of `hooks/useSpeechRecognition` is not among the files,
so the three capture operations follow section 4.1: stop ends capture (listening = false),
start begins capture (listening = true), reset clears the accumulated text buffer. -/
def applyCapture (c : Call) (s : App) : App :=
  match c with
  | Call.stopListening => { s with isListening := false }
  | Call.startListening => { s with isListening := true }
  | Call.resetTranscript => { s with transcript := "" }
  | _ => s

/-- The effect of one call on the state. State setters replace their field; the functional
update of saveAnswer appends to the answers present when it is applied; navigation changes the
route. The remote requests, the notifications and the logout of the user context (whose
provider sits outside the InterviewProvider in index.js) touch none of these fields. -/
def apply (c : Call) (s : App) : App :=
  match c with
  | Call.stopListening => applyCapture c s
  | Call.startListening => applyCapture c s
  | Call.resetTranscript => applyCapture c s
  | Call.setCurrentQuestion n => { s with currentQuestion := n }
  | Call.appendAnswer a => { s with answers := s.answers ++ [a] }
  | Call.setAnswers l => { s with answers := l }
  | Call.setQuestions qs => { s with questions := qs }
  | Call.setInterviewId id => { s with interviewId := id }
  | Call.setTimeLeft n => { s with timeLeft := n }
  | Call.setIsLoading b => { s with isLoading := b }
  | Call.setGeneratingQuestions b => { s with generatingQuestions := b }
  | Call.setFeedback r => { s with feedback := r }
  | Call.setLoading b => { s with loading := b }
  | Call.navigate path => { s with route := path }
  | Call.generateQuestions _ _ => s
  | Call.submitAnswers _ _ => s
  | Call.alert _ => s
  | Call.consoleError _ => s
  | Call.logout => s

/-- The state after the calls of one handler, applied in the order they were issued. -/
def run (cs : List Call) (s : App) : App :=
  cs.foldl (fun acc c => apply c acc) s

/-! ## InterviewContext.js -/

/-- The five built-in questions of InterviewProvider (lines 7 to 13). -/
def defaultQuestions : List String :=
  [ "Tell me about yourself and your experience in software development.",
    "What are your greatest strengths as a developer?",
    "Describe a challenging project you worked on and how you overcame obstacles.",
    "How do you stay updated with the latest technology trends?",
    "Where do you see yourself in 5 years?" ]

/-- The condition `currentQuestion < questions.length - 1`, evaluated over the integers as in
the source (for an empty list the right side is -1). -/
def notLast (s : App) : Bool :=
  decide ((s.currentQuestion : Int) < (s.questions.length : Int) - 1)

/-- Lines 17 to 21 of InterviewContext.js, nextQuestion. -/
def nextQuestion (s : App) : List Call :=
  if notLast s then [Call.setCurrentQuestion (s.currentQuestion + 1)] else []

/-- Lines 23 to 25 of InterviewContext.js, saveAnswer. -/
def saveAnswer (question : Option String) (answer : String) : List Call :=
  [Call.appendAnswer ⟨question, answer⟩]

/-- Lines 27 to 30 of InterviewContext.js, resetInterview. -/
def resetInterview : List Call :=
  [Call.setCurrentQuestion 0, Call.setAnswers []]

/-! ## InterviewRoom.js -/

/-- The expression `transcript || fallback` on strings: the empty string is the only falsy
string. -/
def orElse (transcript fallback : String) : String :=
  if transcript = "" then fallback else transcript

/-- Lines 59 to 63 of InterviewRoom.js, handleEndInterview. -/
def handleEndInterview : List Call :=
  [Call.setIsLoading true] ++ resetInterview ++ [Call.navigate "/feedback"]

/-- Lines 29 to 42 of InterviewRoom.js, handleAutoSubmit. -/
def handleAutoSubmit (s : App) : List Call :=
  (if s.isListening then [Call.stopListening] else []) ++
  saveAnswer s.questions[s.currentQuestion]? s.transcript ++
  (if notLast s then
    nextQuestion s ++ [Call.resetTranscript] ++ [Call.setTimeLeft 40]
  else
    handleEndInterview)

/-- Lines 44 to 57 of InterviewRoom.js, handleSkip. -/
def handleSkip (s : App) : List Call :=
  (if s.isListening then [Call.stopListening] else []) ++
  saveAnswer s.questions[s.currentQuestion]? (orElse s.transcript "Skipped") ++
  (if notLast s then
    nextQuestion s ++ [Call.resetTranscript] ++ [Call.setTimeLeft 40]
  else
    handleEndInterview)

/-- Lines 65 to 68 of InterviewRoom.js, handleLogout. -/
def handleLogout : List Call :=
  [Call.logout, Call.navigate "/"]

/-- Lines 70 to 76 of InterviewRoom.js, toggleRecording. -/
def toggleRecording (s : App) : List Call :=
  if s.isListening then [Call.stopListening] else [Call.startListening]

/-- The update the interval callback passes to setTimeLeft, line 23:
`prev > 0 ? prev - 1 : 0`. -/
def tickValue (prev : Int) : Int :=
  if prev > 0 then prev - 1 else 0

/-- Lines 22 to 24 of InterviewRoom.js: one run of the interval callback. -/
def tick (s : App) : App :=
  { s with timeLeft := tickValue s.timeLeft }

/-- Lines 18 to 20 of InterviewRoom.js: what the timer effect does when it runs, in the render
whose values it reads. -/
def timerEffect (s : App) : List Call :=
  if s.timeLeft = 0 then handleAutoSubmit s else []

/-! ## FeedbackReport.js -/

/-- Lines 14 to 29 of FeedbackReport.js, fetchFeedback. The outcome of the awaited
submitAnswers request is the argument `outcome`: the report, or the error thrown. -/
def fetchFeedback (s : App) (outcome : Except String Report) : List Call :=
  if s.answers.length = 0 then
    [Call.navigate "/dashboard"]
  else
    [Call.submitAnswers s.interviewId s.answers] ++
    (match outcome with
     | Except.ok report => [Call.setFeedback (some report)]
     | Except.error e =>
        [Call.consoleError e, Call.alert "Failed to generate feedback. Please try again."]) ++
    [Call.setLoading false]

/-! ## Dashboard.js -/

/-- Lines 37 to 55 of Dashboard.js, handleStartInterview. The argument `email` is
`user?.email`; `outcome` is the outcome of the awaited generateQuestions request. -/
def handleStartInterview (s : App) (email : Option String)
    (outcome : Except String QuestionSet) : List Call :=
  if s.resumeText = "" then
    [Call.alert "Please upload your resume first!"]
  else
    [Call.setGeneratingQuestions true, Call.generateQuestions s.resumeText email] ++
    (match outcome with
     | Except.ok response =>
        [Call.setQuestions response.questions, Call.setInterviewId response.interviewId,
         Call.navigate "/interview"]
     | Except.error e =>
        [Call.consoleError e, Call.alert "Failed to generate questions. Please try again."]) ++
    [Call.setGeneratingQuestions false]

/-! ## services/interviewAPI.js and services/api.js -/

/-- A POST request as a service module issues it: the address, and the timeout option of
its configuration in milliseconds, `none` when the request is given no timeout option. -/
structure PostRequest where
  url : String
  timeout : Option Nat
deriving DecidableEq, Repr

/-- Lines 6 to 12 of services/interviewAPI.js: generateQuestions posts with `axios.post`
on the module constant API_BASE_URL, and passes no configuration. -/
def interviewAPI.generateQuestions : PostRequest :=
  { url := "http://localhost:8080/api/interview" ++ "/generate-questions", timeout := none }

/-- Lines 14 to 20 of services/interviewAPI.js: submitAnswers, likewise. -/
def interviewAPI.submitAnswers : PostRequest :=
  { url := "http://localhost:8080/api/interview" ++ "/submit-answers", timeout := none }

/-- Lines 5 to 11 of services/api.js: the options of axiosInstance that bear on a request, its
baseURL and its timeout of 30000 ms. -/
def axiosInstance : PostRequest :=
  { url := "http://localhost:8080/api", timeout := some 30000 }

/-- Lines 42 to 48 of services/api.js: the generateQuestions of that module posts through
axiosInstance. -/
def api.generateQuestions : PostRequest :=
  { axiosInstance with url := axiosInstance.url ++ "/interview/generate-questions" }

/-- Lines 50 to 56 of services/api.js: the submitAnswers of that module. -/
def api.submitAnswers : PostRequest :=
  { axiosInstance with url := axiosInstance.url ++ "/interview/submit-answers" }

/-- The request behind a remote call of a page. Dashboard.js (line 5) and FeedbackReport.js
(line 4) both import interviewAPI from services/interviewAPI, so their calls are the requests
of that module. -/
def requestOf (c : Call) : Option PostRequest :=
  match c with
  | Call.generateQuestions _ _ => some interviewAPI.generateQuestions
  | Call.submitAnswers _ _ => some interviewAPI.submitAnswers
  | _ => none

/-- The requests among the calls of a handler. -/
def requests (cs : List Call) : List PostRequest :=
  cs.filterMap requestOf

/-! ## Sessions -/

/-- The state of the application when it is loaded: the initial values of every useState, on
the landing page. -/
def initialApp : App :=
  { currentQuestion := 0, questions := defaultQuestions, answers := [], interviewId := none,
    timeLeft := 40, isLoading := false, transcript := "", isListening := false,
    resumeText := "", generatingQuestions := false, feedback := none, loading := true,
    route := "/" }

/-- A fresh session on the given questions: the interview room just mounted, on question 0
with no answer recorded. -/
def freshSession (qs : List String) (id : Option String) : App :=
  { initialApp with questions := qs, interviewId := id, route := "/interview" }

/-- The trigger of an advance: the skip button or the expiry of the timer. -/
inductive Trigger where
  | skip
  | timerExpiry
deriving DecidableEq, Repr

/-- One advance of a session, with what the capture holds when it happens: the text
recognised so far and whether the microphone is on. -/
structure Advance where
  trigger : Trigger
  transcript : String
  listening : Bool
deriving DecidableEq, Repr

/-- The handler an advance runs. -/
def handlerOf (t : Trigger) (s : App) : List Call :=
  match t with
  | Trigger.skip => handleSkip s
  | Trigger.timerExpiry => handleAutoSubmit s

/-- The state in which an advance happens: the capture holds the text and the flag of the
advance, everything else is as the session left it. -/
def withCapture (a : Advance) (s : App) : App :=
  { s with transcript := a.transcript, isListening := a.listening }

/-- The state after one advance. -/
def advance (s : App) (a : Advance) : App :=
  run (handlerOf a.trigger (withCapture a s)) (withCapture a s)

/-- The state after a sequence of advances. -/
def advances (s : App) (as : List Advance) : App :=
  as.foldl advance s

/-- The calls of saveAnswer among the calls of a handler: the answers it saves. -/
def savedAnswers (cs : List Call) : List Answer :=
  cs.filterMap (fun c => match c with
    | Call.appendAnswer a => some a
    | _ => none)

/-- The submitAnswers requests among the calls of a handler, each with its arguments. -/
def submissions (cs : List Call) : List (Option String × List Answer) :=
  cs.filterMap (fun c => match c with
    | Call.submitAnswers id as => some (id, as)
    | _ => none)

/-- The navigations among the calls of a handler. -/
def navigations (cs : List Call) : List String :=
  cs.filterMap (fun c => match c with
    | Call.navigate path => some path
    | _ => none)

/-- The session has ended: control has passed to the feedback view. -/
def Ended (s : App) : Prop :=
  s.route = "/feedback"

instance (s : App) : Decidable (Ended s) := by
  unfold Ended; infer_instance

/-- A walk through the pages: a session on three questions makes two skips, the user logs out
of the interview room (handleLogout), and later is back on the dashboard with a resume
uploaded. Logging out and uploading touch no field of the interview context. -/
def dashboardAfterLogout : App :=
  { run handleLogout
      (advances (freshSession ["A", "B", "C"] (some "first"))
        [⟨Trigger.skip, "a", false⟩, ⟨Trigger.skip, "b", false⟩]) with
    route := "/dashboard"
    resumeText := "my resume" }

/-- The notifications among the calls of a handler: the texts passed to alert. -/
def alerts (cs : List Call) : List String :=
  cs.filterMap (fun c => match c with
    | Call.alert message => some message
    | _ => none)

/-! ## The timer -/

/-- The calls of one second of the timer (lines 17 to 27). The interval callback has run, and
the effect, which depends on timeLeft alone, runs again only when timeLeft has changed; it
then reads the new render. The other updates of timeLeft are `setTimeLeft(40)`, after which
the effect finds no expiry. -/
def secondCalls (s : App) : List Call :=
  if (tick s).timeLeft = s.timeLeft then [] else timerEffect (tick s)

/-- The state after one second of the timer. -/
def second (s : App) : App :=
  run (secondCalls s) (tick s)

/-- The state after n seconds of the timer with no other event. -/
def seconds : Nat → App → App
  | 0, s => s
  | n + 1, s => seconds n (second s)

/-! ## Events of the interview room -/

/-- What can happen while the interview room is shown: a second of the timer, a press of the
recording button, recognised speech, a press of the skip button, and a call of
handleAutoSubmit. -/
inductive RoomEvent where
  | second
  | toggleRecording
  | heard (text : String)
  | skip
  | timerExpiry
deriving DecidableEq, Repr

/-- Modelled from the spec: the source of `hooks/useSpeechRecognition` is not among the files;
by section 4.1 the buffer accumulates the recognised text until it is reset. -/
def hear (text : String) (s : App) : App :=
  { s with transcript := s.transcript ++ text }

/-- The render an event finds: a second has run the interval callback, recognised speech is
in the buffer. -/
def eventBase (s : App) (e : RoomEvent) : App :=
  match e with
  | RoomEvent.second => tick s
  | RoomEvent.heard text => hear text s
  | _ => s

/-- The calls an event issues. -/
def eventCalls (s : App) (e : RoomEvent) : List Call :=
  match e with
  | RoomEvent.second => secondCalls s
  | RoomEvent.toggleRecording => toggleRecording s
  | RoomEvent.heard _ => []
  | RoomEvent.skip => handleSkip s
  | RoomEvent.timerExpiry => handleAutoSubmit s

/-- The state after an event. -/
def roomStep (s : App) (e : RoomEvent) : App :=
  run (eventCalls s e) (eventBase s e)

/-- The state after a sequence of events. -/
def roomRun (s : App) (es : List RoomEvent) : App :=
  es.foldl roomStep s

/-- The event is the final transition of the session: it navigates to the feedback view. -/
def endsSession (s : App) (e : RoomEvent) : Bool :=
  decide ("/feedback" ∈ navigations (eventCalls s e))

/-- The state after a sequence of events none of which is the final transition; `none` when
one of them is. -/
def sessionRun (s : App) : List RoomEvent → Option App
  | [] => some s
  | e :: es => if endsSession s e then none else sessionRun (roomStep s e) es

/-! ## Events across the pages -/

/-- What can happen across the pages: a start of the interview on the dashboard whose request
succeeds (with the resume uploaded, the address of the user, and the response), and in the
interview room a skip, a timer expiry, a press of End Interview, a press of Logout. -/
inductive PageEvent where
  | startInterview (resumeText : String) (email : Option String) (response : QuestionSet)
  | skip
  | timerExpiry
  | endInterview
  | logout
deriving DecidableEq, Repr

/-- The state after an event of the pages. -/
def pageStep (s : App) (e : PageEvent) : App :=
  match e with
  | PageEvent.startInterview resumeText email response =>
      run (handleStartInterview { s with resumeText := resumeText } email (Except.ok response))
        { s with resumeText := resumeText }
  | PageEvent.skip => run (handleSkip s) s
  | PageEvent.timerExpiry => run (handleAutoSubmit s) s
  | PageEvent.endInterview => run handleEndInterview s
  | PageEvent.logout => run handleLogout s

/-- The state after a sequence of events of the pages. -/
def pageRun (s : App) (es : List PageEvent) : App :=
  es.foldl pageStep s

/-- What holds of a session before its final transition, on the questions qs. -/
def InSession (qs : List String) (s : App) : Prop :=
  s.questions = qs ∧ s.answers.length = s.currentQuestion ∧
    (qs ≠ [] → s.currentQuestion + 1 ≤ qs.length)

/-! ## Running calls -/

theorem run_nil (s : App) : run [] s = s := rfl

theorem run_cons (c : Call) (cs : List Call) (s : App) :
    run (c :: cs) s = run cs (apply c s) := rfl

theorem run_append (cs ds : List Call) (s : App) :
    run (cs ++ ds) s = run ds (run cs s) := by
  simp [run, List.foldl_append]

theorem notLast_iff (s : App) :
    notLast s = true ↔ s.currentQuestion + 1 < s.questions.length := by
  unfold notLast
  simp only [decide_eq_true_eq]
  omega

theorem notLast_false_iff (s : App) :
    notLast s = false ↔ s.questions.length ≤ s.currentQuestion + 1 := by
  unfold notLast
  simp only [decide_eq_false_iff_not]
  omega

/-- The text an advance saves: the transcript, or the marker when a skip finds it empty. -/
theorem savedAnswers_handler (s : App) (t : Trigger) :
    savedAnswers (handlerOf t s) =
      [⟨s.questions[s.currentQuestion]?,
        if t = Trigger.skip then orElse s.transcript "Skipped" else s.transcript⟩] := by
  cases t <;> cases hl : s.isListening <;> cases hn : notLast s <;>
    simp [handlerOf, handleSkip, handleAutoSubmit, saveAnswer, nextQuestion,
      handleEndInterview, resetInterview, savedAnswers, hl, hn]

/-- An advance on a question that is not the last one. -/
theorem run_handler_notLast (s : App) (t : Trigger) (h : notLast s = true) :
    run (handlerOf t s) s =
      { s with
        isListening := false
        answers := s.answers ++
          [⟨s.questions[s.currentQuestion]?,
            if t = Trigger.skip then orElse s.transcript "Skipped" else s.transcript⟩]
        currentQuestion := s.currentQuestion + 1
        transcript := ""
        timeLeft := 40 } := by
  cases t <;> cases hl : s.isListening <;>
    simp [handlerOf, handleSkip, handleAutoSubmit, saveAnswer, nextQuestion, run, apply,
      applyCapture, hl, h]

/-- An advance on the last question, or past it. -/
theorem run_handler_last (s : App) (t : Trigger) (h : notLast s = false) :
    run (handlerOf t s) s =
      { s with
        isListening := false
        isLoading := true
        currentQuestion := 0
        answers := []
        route := "/feedback" } := by
  cases t <;> cases hl : s.isListening <;>
    simp [handlerOf, handleSkip, handleAutoSubmit, saveAnswer, handleEndInterview,
      resetInterview, run, apply, applyCapture, hl, h]

/-! ## Sessions from a fresh start -/

theorem advances_snoc (s : App) (as : List Advance) (a : Advance) :
    advances s (as ++ [a]) = advance (advances s as) a := by
  simp [advances, List.foldl_append]

theorem withCapture_notLast (a : Advance) (s : App) :
    notLast (withCapture a s) = notLast s := rfl

/-- The state of a session that has made only advances before its last question. -/
theorem advances_inProgress (qs : List String) (id : Option String) (as : List Advance)
    (h : as.length < qs.length) :
    (advances (freshSession qs id) as).currentQuestion = as.length ∧
    (advances (freshSession qs id) as).questions = qs ∧
    (advances (freshSession qs id) as).answers.map Answer.question
      = (qs.take as.length).map some ∧
    (advances (freshSession qs id) as).interviewId = id ∧
    (advances (freshSession qs id) as).route = "/interview" := by
  induction as using List.reverseRecOn with
  | nil => simp [advances, freshSession, initialApp]
  | append_singleton as a ih =>
    have hlen : as.length + 1 < qs.length := by simpa using h
    obtain ⟨hc, hq, ha, hi, hr⟩ := ih (by omega)
    have hn : notLast (withCapture a (advances (freshSession qs id) as)) = true := by
      rw [withCapture_notLast, notLast_iff, hc, hq]; exact hlen
    rw [advances_snoc, advance, run_handler_notLast _ _ hn]
    simp only [withCapture, List.length_append, List.length_singleton, List.map_append,
      List.map_cons, List.map_nil, hc, hq, ha, hi, hr, List.take_succ, true_and]
    have hk : as.length < qs.length := by omega
    simp [List.getElem?_eq_getElem hk]

/-- The state of a session after its last advance. -/
theorem advances_completed (qs : List String) (id : Option String) (as : List Advance)
    (hne : qs ≠ []) (h : as.length = qs.length) :
    (advances (freshSession qs id) as).answers = [] ∧
    (advances (freshSession qs id) as).currentQuestion = 0 ∧
    (advances (freshSession qs id) as).interviewId = id ∧
    (advances (freshSession qs id) as).route = "/feedback" := by
  induction as using List.reverseRecOn with
  | nil =>
    have : qs.length = 0 := by simpa using h.symm
    exact absurd (List.length_eq_zero.mp this) hne
  | append_singleton as a _ =>
    have hlen : as.length + 1 = qs.length := by simpa using h
    obtain ⟨hc, hq, _, hi, _⟩ := advances_inProgress qs id as (by omega)
    have hn : notLast (withCapture a (advances (freshSession qs id) as)) = false := by
      rw [withCapture_notLast, notLast_false_iff, hc, hq]; omega
    rw [advances_snoc, advance, run_handler_last _ _ hn]
    simp [withCapture, hi]

/-! ## The timer and the events of the room -/

theorem tickValue_bounds (r : Int) (h0 : 0 ≤ r) (h40 : r ≤ 40) :
    0 ≤ tickValue r ∧ tickValue r ≤ 40 := by
  unfold tickValue
  split <;> omega

/-- The calls of a second: handleAutoSubmit once when the tick brings timeLeft to 0 from
another value, nothing otherwise. -/
theorem secondCalls_eq (s : App) :
    secondCalls s =
      if s.timeLeft ≠ 0 ∧ (tick s).timeLeft = 0 then handleAutoSubmit (tick s) else [] := by
  unfold secondCalls timerEffect
  by_cases h0 : (tick s).timeLeft = 0
  · by_cases hs : s.timeLeft = 0
    · simp [h0, hs]
    · have hne : ¬ (0 : Int) = s.timeLeft := fun h => hs h.symm
      simp [h0, hs, hne]
  · simp [h0]

/-- The navigations of an advance: to the feedback view on the last question, none before. -/
theorem navigations_handler (s : App) (t : Trigger) :
    navigations (handlerOf t s) = if notLast s then [] else ["/feedback"] := by
  cases t <;> cases hl : s.isListening <;> cases hn : notLast s <;>
    simp [handlerOf, handleSkip, handleAutoSubmit, saveAnswer, nextQuestion,
      handleEndInterview, resetInterview, navigations, hl, hn]

theorem tick_notLast (s : App) : notLast (tick s) = notLast s := rfl

/-- An event that is not the final transition keeps the questions and either keeps the index
and the answers or, before the last question, moves the index by one and adds one answer. -/
theorem roomStep_inSession (s : App) (e : RoomEvent) (h : endsSession s e = false) :
    (roomStep s e).questions = s.questions ∧
    (((roomStep s e).currentQuestion = s.currentQuestion ∧
        (roomStep s e).answers = s.answers) ∨
      (s.currentQuestion + 1 < s.questions.length ∧
        (roomStep s e).currentQuestion = s.currentQuestion + 1 ∧
        ∃ a, (roomStep s e).answers = s.answers ++ [a])) := by
  have advance_case : ∀ (u : App) (t : Trigger),
      "/feedback" ∉ navigations (handlerOf t u) →
      (run (handlerOf t u) u).questions = u.questions ∧
      (u.currentQuestion + 1 < u.questions.length ∧
        (run (handlerOf t u) u).currentQuestion = u.currentQuestion + 1 ∧
        ∃ a, (run (handlerOf t u) u).answers = u.answers ++ [a]) := by
    intro u t hnav
    have hn : notLast u = true := by
      cases hc : notLast u
      · rw [navigations_handler, hc] at hnav; simp at hnav
      · rfl
    rw [run_handler_notLast u t hn]
    exact ⟨rfl, (notLast_iff u).mp hn, rfl, ⟨_, rfl⟩⟩
  unfold endsSession at h
  simp only [decide_eq_false_iff_not] at h
  cases e with
  | second =>
    simp only [eventCalls] at h
    simp only [roomStep, eventCalls, eventBase]
    by_cases hf : s.timeLeft ≠ 0 ∧ (tick s).timeLeft = 0
    · rw [secondCalls_eq, if_pos hf] at h ⊢
      obtain ⟨hq, hlt, hc, ha⟩ := advance_case (tick s) Trigger.timerExpiry h
      exact ⟨hq, Or.inr ⟨hlt, hc, ha⟩⟩
    · rw [secondCalls_eq, if_neg hf]
      exact ⟨rfl, Or.inl ⟨rfl, rfl⟩⟩
  | toggleRecording =>
    cases hl : s.isListening <;>
      simp [roomStep, eventCalls, eventBase, toggleRecording, run, apply, applyCapture, hl]
  | heard text =>
    simp [roomStep, eventCalls, eventBase, hear, run]
  | skip =>
    obtain ⟨hq, hlt, hc, ha⟩ := advance_case s Trigger.skip h
    exact ⟨hq, Or.inr ⟨hlt, hc, ha⟩⟩
  | timerExpiry =>
    obtain ⟨hq, hlt, hc, ha⟩ := advance_case s Trigger.timerExpiry h
    exact ⟨hq, Or.inr ⟨hlt, hc, ha⟩⟩

theorem inSession_fresh (qs : List String) (id : Option String) :
    InSession qs (freshSession qs id) := by
  refine ⟨rfl, rfl, fun hne => ?_⟩
  have : 0 < qs.length := List.length_pos.mpr hne
  simp only [freshSession, initialApp]
  omega

theorem inSession_step (qs : List String) (s : App) (e : RoomEvent)
    (hs : InSession qs s) (h : endsSession s e = false) :
    InSession qs (roomStep s e) := by
  obtain ⟨hq, ha, hb⟩ := hs
  obtain ⟨hq2, hcase⟩ := roomStep_inSession s e h
  rcases hcase with ⟨hc, hans⟩ | ⟨hlt, hc, a, hans⟩
  · exact ⟨hq2.trans hq, by rw [hans, hc]; exact ha, by rw [hc]; exact hb⟩
  · refine ⟨hq2.trans hq, ?_, fun _ => ?_⟩
    · rw [hans, hc, List.length_append, ha]; rfl
    · rw [hc, ← hq]; omega

theorem inSession_sessionRun (qs : List String) (es : List RoomEvent) :
    ∀ (s0 s : App), InSession qs s0 → sessionRun s0 es = some s → InSession qs s := by
  induction es with
  | nil =>
    intro s0 s h0 h
    simp only [sessionRun, Option.some.injEq] at h
    exact h ▸ h0
  | cons e es ih =>
    intro s0 s h0 h
    simp only [sessionRun] at h
    cases he : endsSession s0 e
    · rw [he] at h
      exact ih _ _ (inSession_step qs s0 e h0 he) h
    · rw [he] at h
      simp at h

/-- Every event keeps timeLeft within 0 and 40. -/
theorem roomStep_timeLeft (s : App) (e : RoomEvent)
    (h0 : 0 ≤ s.timeLeft) (h40 : s.timeLeft ≤ 40) :
    0 ≤ (roomStep s e).timeLeft ∧ (roomStep s e).timeLeft ≤ 40 := by
  have advance_case : ∀ (u : App) (t : Trigger), 0 ≤ u.timeLeft → u.timeLeft ≤ 40 →
      0 ≤ (run (handlerOf t u) u).timeLeft ∧ (run (handlerOf t u) u).timeLeft ≤ 40 := by
    intro u t hu0 hu40
    cases hn : notLast u
    · rw [run_handler_last u t hn]; exact ⟨hu0, hu40⟩
    · rw [run_handler_notLast u t hn]; exact ⟨by simp, by simp⟩
  have htick := tickValue_bounds s.timeLeft h0 h40
  cases e with
  | second =>
    simp only [roomStep, eventCalls, eventBase]
    by_cases hf : s.timeLeft ≠ 0 ∧ (tick s).timeLeft = 0
    · rw [secondCalls_eq, if_pos hf]
      exact advance_case (tick s) Trigger.timerExpiry htick.1 htick.2
    · rw [secondCalls_eq, if_neg hf]
      exact htick
  | toggleRecording =>
    cases hl : s.isListening <;>
      simp [roomStep, eventCalls, eventBase, toggleRecording, run, apply, applyCapture, hl,
        h0, h40]
  | heard text =>
    simp [roomStep, eventCalls, eventBase, hear, run, h0, h40]
  | skip => exact advance_case s Trigger.skip h0 h40
  | timerExpiry => exact advance_case s Trigger.timerExpiry h0 h40

theorem roomRun_timeLeft (es : List RoomEvent) :
    ∀ s : App, 0 ≤ s.timeLeft → s.timeLeft ≤ 40 →
      0 ≤ (roomRun s es).timeLeft ∧ (roomRun s es).timeLeft ≤ 40 := by
  induction es with
  | nil => intro s h0 h40; exact ⟨h0, h40⟩
  | cons e es ih =>
    intro s h0 h40
    obtain ⟨h0', h40'⟩ := roomStep_timeLeft s e h0 h40
    exact ih (roomStep s e) h0' h40'

/-- With more than one second left, a second of the timer only counts down. -/
theorem second_countdown (s : App) (h : 1 < s.timeLeft) :
    secondCalls s = [] ∧ second s = { s with timeLeft := s.timeLeft - 1 } := by
  have hpos : s.timeLeft > 0 := by omega
  have htv : tickValue s.timeLeft = s.timeLeft - 1 := by simp [tickValue, hpos]
  have h1 : ¬ (s.timeLeft ≠ 0 ∧ (tick s).timeLeft = 0) := by
    simp only [tick, htv]
    intro ⟨_, h2⟩
    omega
  have hcalls : secondCalls s = [] := by rw [secondCalls_eq, if_neg h1]
  exact ⟨hcalls, by simp [second, hcalls, run, tick, htv]⟩

/-- While more than k seconds are left, k seconds of the timer only count down. -/
theorem seconds_countdown (k : Nat) :
    ∀ s : App, (k : Int) < s.timeLeft →
      seconds k s = { s with timeLeft := s.timeLeft - k } := by
  induction k with
  | zero =>
    intro s _
    simp [seconds]
  | succ k ih =>
    intro s h
    have h1 : 1 < s.timeLeft := by omega
    have hsec := (second_countdown s h1).2
    have hk : (k : Int) < (second s).timeLeft := by rw [hsec]; simp only; omega
    rw [seconds, ih (second s) hk, hsec]
    simp only [Nat.cast_add, Nat.cast_one]
    congr 1
    omega

/-! ## The claims -/

/-- C1, evaluated on a completed session of one question. The skip saves the answer
(Q0, "my answer"), yet the session reaches the feedback view with an empty answers list,
because handleEndInterview runs resetInterview before it navigates; fetchFeedback then issues
no submitAnswers request at all and redirects to the dashboard. The claim requires one request
carrying the recorded answer. -/
theorem C1_completed_session_submits_nothing :
    savedAnswers
        (handleSkip (withCapture ⟨Trigger.skip, "my answer", false⟩
          (freshSession ["Q0"] (some "id"))))
      = [⟨some "Q0", "my answer"⟩] ∧
    (advances (freshSession ["Q0"] (some "id"))
        [⟨Trigger.skip, "my answer", false⟩]).answers = [] ∧
    submissions
        (fetchFeedback
          (advances (freshSession ["Q0"] (some "id")) [⟨Trigger.skip, "my answer", false⟩])
          (Except.ok "report"))
      = [] ∧
    fetchFeedback
        (advances (freshSession ["Q0"] (some "id")) [⟨Trigger.skip, "my answer", false⟩])
        (Except.ok "report")
      = [Call.navigate "/dashboard"] := by
  decide

/-- C2, evaluated on a session of two questions. After one advance the answers list has one
entry, for Q0; after the second advance, the one on the last question, it has none, where the
claim requires two. The last advance runs handleEndInterview, whose resetInterview empties the
list. -/
theorem C2_last_advance_empties_answers :
    (advances (freshSession ["Q0", "Q1"] none)
        [⟨Trigger.skip, "a", false⟩]).answers = [⟨some "Q0", "a"⟩] ∧
    (advances (freshSession ["Q0", "Q1"] none)
        [⟨Trigger.skip, "a", false⟩, ⟨Trigger.timerExpiry, "b", false⟩]).answers.length = 0 := by
  decide

/-- C3: with no answers fetchFeedback navigates to the dashboard and issues no submitAnswers
request; with answers it issues exactly one submitAnswers request, on the interviewId and the
answers of the context, and navigates nowhere. This holds whatever the request returns. -/
theorem C3_fetchFeedback_guard (s : App) (outcome : Except String Report) :
    (s.answers = [] →
      fetchFeedback s outcome = [Call.navigate "/dashboard"] ∧
      navigations (fetchFeedback s outcome) = ["/dashboard"] ∧
      submissions (fetchFeedback s outcome) = []) ∧
    (s.answers ≠ [] →
      submissions (fetchFeedback s outcome) = [(s.interviewId, s.answers)] ∧
      navigations (fetchFeedback s outcome) = []) := by
  constructor
  · intro h
    simp [fetchFeedback, h, navigations, submissions]
  · intro h
    have hlen : ¬ s.answers.length = 0 := fun h0 => h (List.length_eq_zero.mp h0)
    cases outcome <;> simp [fetchFeedback, hlen, navigations, submissions]

/-- C3 at two concrete states of the feedback view, one without and one with answers. -/
theorem C3_fetchFeedback_guard_witness :
    (fetchFeedback (freshSession ["Q0"] (some "id")) (Except.ok "report")
        = [Call.navigate "/dashboard"] ∧
      navigations (fetchFeedback (freshSession ["Q0"] (some "id")) (Except.ok "report"))
        = ["/dashboard"] ∧
      submissions (fetchFeedback (freshSession ["Q0"] (some "id")) (Except.ok "report"))
        = []) ∧
    (submissions
        (fetchFeedback { freshSession ["Q0"] (some "id") with answers := [⟨some "Q0", "a"⟩] }
          (Except.error "timeout"))
        = [(some "id", [⟨some "Q0", "a"⟩])] ∧
      navigations
        (fetchFeedback { freshSession ["Q0"] (some "id") with answers := [⟨some "Q0", "a"⟩] }
          (Except.error "timeout"))
        = []) :=
  ⟨(C3_fetchFeedback_guard (freshSession ["Q0"] (some "id")) (Except.ok "report")).1
      (by decide),
    (C3_fetchFeedback_guard
      { freshSession ["Q0"] (some "id") with answers := [⟨some "Q0", "a"⟩] }
      (Except.error "timeout")).2 (by decide)⟩

/-- C4: on the current question q, handleSkip with an empty transcript saves (q, "Skipped"),
and with a non-empty transcript handleSkip and handleAutoSubmit both save the transcript as it
is. In each case it is the only answer the handler saves. -/
theorem C4_saved_answer (s : App) (q : String)
    (hq : s.questions[s.currentQuestion]? = some q) :
    (s.transcript = "" → savedAnswers (handleSkip s) = [⟨some q, "Skipped"⟩]) ∧
    (s.transcript ≠ "" →
      savedAnswers (handleSkip s) = [⟨some q, s.transcript⟩] ∧
      savedAnswers (handleAutoSubmit s) = [⟨some q, s.transcript⟩]) := by
  have hskip := savedAnswers_handler s Trigger.skip
  have hauto := savedAnswers_handler s Trigger.timerExpiry
  simp only [handlerOf, hq, if_true] at hskip hauto
  refine ⟨fun h => ?_, fun h => ⟨?_, ?_⟩⟩
  · rw [hskip]; simp [orElse, h]
  · rw [hskip]; simp [orElse, h]
  · rw [hauto]; simp

/-- C4 on the first question of a session, with an empty and with a non-empty transcript. -/
theorem C4_saved_answer_witness :
    savedAnswers (handleSkip (freshSession ["Q0", "Q1"] none)) = [⟨some "Q0", "Skipped"⟩] ∧
    savedAnswers
        (handleSkip { freshSession ["Q0", "Q1"] none with transcript := "three years" })
      = [⟨some "Q0", "three years"⟩] ∧
    savedAnswers
        (handleAutoSubmit { freshSession ["Q0", "Q1"] none with transcript := "three years" })
      = [⟨some "Q0", "three years"⟩] :=
  ⟨(C4_saved_answer (freshSession ["Q0", "Q1"] none) "Q0" (by decide)).1 (by decide),
    (C4_saved_answer { freshSession ["Q0", "Q1"] none with transcript := "three years" }
      "Q0" (by decide)).2 (by decide)⟩

/-- C5 fails as it is stated: in the scenario of the specification, after the skip on Q0 the
timer expires on Q1 with an empty transcript. The answer handleAutoSubmit saves is (Q1, ""),
not (Q1, "Skipped"), and the answers list it leaves is not the list of the claim. -/
theorem C5_counterexample :
    savedAnswers
        (handleAutoSubmit
          (advances (freshSession ["Q0", "Q1"] none)
            [⟨Trigger.skip, "I have 3 years experience", false⟩]))
      = [⟨some "Q1", ""⟩] ∧
    savedAnswers
        (handleAutoSubmit
          (advances (freshSession ["Q0", "Q1"] none)
            [⟨Trigger.skip, "I have 3 years experience", false⟩]))
      ≠ [⟨some "Q1", "Skipped"⟩] ∧
    (advances (freshSession ["Q0", "Q1"] none)
        [⟨Trigger.skip, "I have 3 years experience", false⟩,
          ⟨Trigger.timerExpiry, "", false⟩]).answers
      ≠ [⟨some "Q0", "I have 3 years experience"⟩, ⟨some "Q1", "Skipped"⟩] := by
  decide

/-- C5 as amended: when Q1 is the last question and one answer for Q0 is recorded,
handleAutoSubmit with an empty transcript saves the answer (Q1, ""), the empty transcript
itself, so that the answers it hands to handleEndInterview are the answer for Q0 followed by
(Q1, ""); and the session is Ended. -/
theorem C5_timer_expiry_on_last_question (s : App) (q0 q1 a0 : String)
    (hq : s.questions = [q0, q1]) (hc : s.currentQuestion = 1)
    (ha : s.answers = [⟨some q0, a0⟩]) (ht : s.transcript = "") :
    savedAnswers (handleAutoSubmit s) = [⟨some q1, ""⟩] ∧
    (∃ pre, handleAutoSubmit s = pre ++ handleEndInterview ∧
      (run pre s).answers = [⟨some q0, a0⟩, ⟨some q1, ""⟩]) ∧
    Ended (run (handleAutoSubmit s) s) := by
  have hn : notLast s = false := by
    rw [notLast_false_iff, hq, hc]; simp
  have hsaved := savedAnswers_handler s Trigger.timerExpiry
  have hrun := run_handler_last s Trigger.timerExpiry hn
  simp only [handlerOf] at hsaved hrun
  refine ⟨?_, ?_, ?_⟩
  · rw [hsaved]; simp [hq, hc, ht]
  · refine ⟨(if s.isListening then [Call.stopListening] else []) ++
        saveAnswer s.questions[s.currentQuestion]? s.transcript, ?_, ?_⟩
    · simp [handleAutoSubmit, hn]
    · cases hl : s.isListening <;>
        simp [saveAnswer, run, apply, applyCapture, hq, hc, ha, ht]
  · rw [hrun]; rfl

/-- C5 as amended, in the scenario of the specification. -/
theorem C5_timer_expiry_on_last_question_witness :
    savedAnswers
        (handleAutoSubmit
          (advances (freshSession ["Q0", "Q1"] none)
            [⟨Trigger.skip, "I have 3 years experience", false⟩]))
      = [⟨some "Q1", ""⟩] ∧
    (∃ pre,
      handleAutoSubmit
          (advances (freshSession ["Q0", "Q1"] none)
            [⟨Trigger.skip, "I have 3 years experience", false⟩])
        = pre ++ handleEndInterview ∧
      (run pre
          (advances (freshSession ["Q0", "Q1"] none)
            [⟨Trigger.skip, "I have 3 years experience", false⟩])).answers
        = [⟨some "Q0", "I have 3 years experience"⟩, ⟨some "Q1", ""⟩]) ∧
    Ended
      (run
        (handleAutoSubmit
          (advances (freshSession ["Q0", "Q1"] none)
            [⟨Trigger.skip, "I have 3 years experience", false⟩]))
        (advances (freshSession ["Q0", "Q1"] none)
          [⟨Trigger.skip, "I have 3 years experience", false⟩])) :=
  C5_timer_expiry_on_last_question
    (advances (freshSession ["Q0", "Q1"] none)
      [⟨Trigger.skip, "I have 3 years experience", false⟩])
    "Q0" "Q1" "I have 3 years experience" (by decide) (by decide) (by decide) (by decide)

/-- C6: on the last question (currentQuestion = questions.length - 1) both handlers finish
with the calls of handleEndInterview, navigate to the feedback view and nowhere else, leave the
session Ended, and issue no update of the index to currentQuestion + 1, so the index is not
advanced; before the last question neither of them navigates, and the route is unchanged. -/
theorem C6_ends_exactly_on_last_question (s : App) (t : Trigger) :
    ((s.currentQuestion : Int) = (s.questions.length : Int) - 1 →
      (∃ pre, handlerOf t s = pre ++ handleEndInterview) ∧
      navigations (handlerOf t s) = ["/feedback"] ∧
      Ended (run (handlerOf t s) s) ∧
      Call.setCurrentQuestion (s.currentQuestion + 1) ∉ handlerOf t s ∧
      (run (handlerOf t s) s).currentQuestion ≤ s.currentQuestion) ∧
    ((s.currentQuestion : Int) < (s.questions.length : Int) - 1 →
      navigations (handlerOf t s) = [] ∧
      (run (handlerOf t s) s).route = s.route ∧
      (¬ Ended s → ¬ Ended (run (handlerOf t s) s))) := by
  constructor
  · intro h
    have hn : notLast s = false := by rw [notLast_false_iff]; omega
    have hrun := run_handler_last s t hn
    refine ⟨?_, ?_, ?_, ?_, ?_⟩
    · refine ⟨(if s.isListening then [Call.stopListening] else []) ++
          saveAnswer s.questions[s.currentQuestion]?
            (if t = Trigger.skip then orElse s.transcript "Skipped" else s.transcript), ?_⟩
      cases t <;> simp [handlerOf, handleSkip, handleAutoSubmit, hn]
    · cases t <;> cases hl : s.isListening <;>
        simp [handlerOf, handleSkip, handleAutoSubmit, saveAnswer, handleEndInterview,
          resetInterview, navigations, hl, hn]
    · rw [hrun]; rfl
    · cases t <;> cases hl : s.isListening <;>
        simp [handlerOf, handleSkip, handleAutoSubmit, saveAnswer, handleEndInterview,
          resetInterview, hl, hn]
    · rw [hrun]; exact Nat.zero_le _
  · intro h
    have hn : notLast s = true := by rw [notLast_iff]; omega
    have hrun := run_handler_notLast s t hn
    have hroute : (run (handlerOf t s) s).route = s.route := by rw [hrun]
    refine ⟨?_, hroute, ?_⟩
    · cases t <;> cases hl : s.isListening <;>
        simp [handlerOf, handleSkip, handleAutoSubmit, saveAnswer, nextQuestion,
          navigations, hl, hn]
    · intro hne
      unfold Ended at hne ⊢
      rw [hroute]; exact hne

/-- C6 on a session of two questions: a timer expiry on the last question, a skip on the
first one. -/
theorem C6_ends_exactly_on_last_question_witness :
    ((∃ pre,
        handlerOf Trigger.timerExpiry { freshSession ["Q0", "Q1"] none with currentQuestion := 1 }
          = pre ++ handleEndInterview) ∧
      navigations
          (handlerOf Trigger.timerExpiry
            { freshSession ["Q0", "Q1"] none with currentQuestion := 1 })
        = ["/feedback"] ∧
      Ended
        (run
          (handlerOf Trigger.timerExpiry
            { freshSession ["Q0", "Q1"] none with currentQuestion := 1 })
          { freshSession ["Q0", "Q1"] none with currentQuestion := 1 }) ∧
      Call.setCurrentQuestion (1 + 1)
        ∉ handlerOf Trigger.timerExpiry
            { freshSession ["Q0", "Q1"] none with currentQuestion := 1 } ∧
      (run
          (handlerOf Trigger.timerExpiry
            { freshSession ["Q0", "Q1"] none with currentQuestion := 1 })
          { freshSession ["Q0", "Q1"] none with currentQuestion := 1 }).currentQuestion
        ≤ 1) ∧
    (navigations (handlerOf Trigger.skip (freshSession ["Q0", "Q1"] none)) = [] ∧
      (run (handlerOf Trigger.skip (freshSession ["Q0", "Q1"] none))
          (freshSession ["Q0", "Q1"] none)).route
        = "/interview" ∧
      (¬ Ended (freshSession ["Q0", "Q1"] none) →
        ¬ Ended
          (run (handlerOf Trigger.skip (freshSession ["Q0", "Q1"] none))
            (freshSession ["Q0", "Q1"] none)))) :=
  ⟨(C6_ends_exactly_on_last_question
      { freshSession ["Q0", "Q1"] none with currentQuestion := 1 } Trigger.timerExpiry).1
      (by decide),
    (C6_ends_exactly_on_last_question (freshSession ["Q0", "Q1"] none) Trigger.skip).2
      (by decide)⟩

/-- C7: an advance on question i, with i + 1 < questions.length, leaves capture not listening,
the old answers followed by one answer for questions[i] (the transcript, or "Skipped" when a
skip finds it empty), the index i + 1, an empty transcript, 40 seconds on the timer, and the
question list as it was. -/
theorem C7_advance_to_next_question (s : App) (t : Trigger) (i : Nat)
    (hi : s.currentQuestion = i) (h : i + 1 < s.questions.length) :
    (run (handlerOf t s) s).isListening = false ∧
    (∃ q, s.questions[i]? = some q ∧
      (run (handlerOf t s) s).answers = s.answers ++
        [⟨some q, if t = Trigger.skip then orElse s.transcript "Skipped" else s.transcript⟩]) ∧
    (run (handlerOf t s) s).currentQuestion = i + 1 ∧
    (run (handlerOf t s) s).transcript = "" ∧
    (run (handlerOf t s) s).timeLeft = 40 ∧
    (run (handlerOf t s) s).questions = s.questions := by
  subst hi
  have hn : notLast s = true := (notLast_iff s).mpr h
  have hlt : s.currentQuestion < s.questions.length := by omega
  rw [run_handler_notLast s t hn]
  refine ⟨rfl, ⟨s.questions[s.currentQuestion], ?_, ?_⟩, rfl, rfl, rfl, rfl⟩
  · exact List.getElem?_eq_getElem hlt
  · simp [List.getElem?_eq_getElem hlt]

/-- C7 in the scenario of the specification: two questions, a skip on Q0 while capture is
listening and the transcript reads "I have 3 years experience". -/
theorem C7_advance_to_next_question_witness :
    (run
        (handlerOf Trigger.skip
          (withCapture ⟨Trigger.skip, "I have 3 years experience", true⟩
            (freshSession ["Q0", "Q1"] none)))
        (withCapture ⟨Trigger.skip, "I have 3 years experience", true⟩
          (freshSession ["Q0", "Q1"] none))).answers
      = [⟨some "Q0", "I have 3 years experience"⟩] ∧
    (run
        (handlerOf Trigger.skip
          (withCapture ⟨Trigger.skip, "I have 3 years experience", true⟩
            (freshSession ["Q0", "Q1"] none)))
        (withCapture ⟨Trigger.skip, "I have 3 years experience", true⟩
          (freshSession ["Q0", "Q1"] none))).isListening = false ∧
    (run
        (handlerOf Trigger.skip
          (withCapture ⟨Trigger.skip, "I have 3 years experience", true⟩
            (freshSession ["Q0", "Q1"] none)))
        (withCapture ⟨Trigger.skip, "I have 3 years experience", true⟩
          (freshSession ["Q0", "Q1"] none))).currentQuestion = 0 + 1 ∧
    (run
        (handlerOf Trigger.skip
          (withCapture ⟨Trigger.skip, "I have 3 years experience", true⟩
            (freshSession ["Q0", "Q1"] none)))
        (withCapture ⟨Trigger.skip, "I have 3 years experience", true⟩
          (freshSession ["Q0", "Q1"] none))).timeLeft = 40 :=
  have key := C7_advance_to_next_question
    (withCapture ⟨Trigger.skip, "I have 3 years experience", true⟩
      (freshSession ["Q0", "Q1"] none))
    Trigger.skip 0 (by decide) (by decide)
  ⟨by decide, key.1, key.2.2.1, key.2.2.2.2.1⟩

/-- C8, evaluated after a logout in the middle of a session. The session on A, B, C had made
two skips when the user logged out; handleStartInterview then loads the questions N0, N1 and
sets the questions and the interviewId only: currentQuestion is still 2 and the two old
answers are still there, where the claim requires index 0 and no answers. The index is now
outside the new list, so the question shown is undefined. -/
theorem C8_start_keeps_old_progress :
    dashboardAfterLogout.currentQuestion = 2 ∧
    (run
        (handleStartInterview dashboardAfterLogout (some "user@example.com")
          (Except.ok ⟨["N0", "N1"], some "second"⟩))
        dashboardAfterLogout).questions = ["N0", "N1"] ∧
    (run
        (handleStartInterview dashboardAfterLogout (some "user@example.com")
          (Except.ok ⟨["N0", "N1"], some "second"⟩))
        dashboardAfterLogout).interviewId = some "second" ∧
    (run
        (handleStartInterview dashboardAfterLogout (some "user@example.com")
          (Except.ok ⟨["N0", "N1"], some "second"⟩))
        dashboardAfterLogout).route = "/interview" ∧
    (run
        (handleStartInterview dashboardAfterLogout (some "user@example.com")
          (Except.ok ⟨["N0", "N1"], some "second"⟩))
        dashboardAfterLogout).currentQuestion = 2 ∧
    (run
        (handleStartInterview dashboardAfterLogout (some "user@example.com")
          (Except.ok ⟨["N0", "N1"], some "second"⟩))
        dashboardAfterLogout).answers = [⟨some "A", "a"⟩, ⟨some "B", "b"⟩] ∧
    ["N0", "N1"][2]? = (none : Option String) := by
  decide

/-- C9: whatever the index and the transcript, handleEndInterview saves no answer, and after
it the answers are empty and currentQuestion is 0, the questions and the interviewId are
unchanged, and the only navigation is to the feedback view. -/
theorem C9_end_interview_discards (s : App) :
    savedAnswers handleEndInterview = [] ∧
    (run handleEndInterview s).answers = [] ∧
    (run handleEndInterview s).currentQuestion = 0 ∧
    (run handleEndInterview s).questions = s.questions ∧
    (run handleEndInterview s).interviewId = s.interviewId ∧
    navigations handleEndInterview = ["/feedback"] ∧
    (run handleEndInterview s).route = "/feedback" := by
  refine ⟨by decide, ?_, ?_, ?_, ?_, by decide, ?_⟩ <;>
    simp [handleEndInterview, resetInterview, run, apply]

/-- C10, evaluated on a session whose capture is listening when End Interview is pressed.
The handler handleEndInterview issues no stopListening call, so the session is Ended with
capture still listening, where the claim requires capture to be stopped. The handlers
handleSkip and handleAutoSubmit do stop capture before they end the session. -/
theorem C10_end_interview_leaves_capture_listening :
    Call.stopListening ∉ handleEndInterview ∧
    Ended (run handleEndInterview { freshSession ["Q0", "Q1"] none with isListening := true }) ∧
    (run handleEndInterview
        { freshSession ["Q0", "Q1"] none with isListening := true }).isListening = true ∧
    (run
        (handleSkip { freshSession ["Q0"] none with isListening := true })
        { freshSession ["Q0"] none with isListening := true }).isListening = false ∧
    (run
        (handleAutoSubmit { freshSession ["Q0"] none with isListening := true })
        { freshSession ["Q0"] none with isListening := true }).isListening = false := by
  decide

/-- C11: in every state a session reaches from its fresh start by seconds of the timer,
recording toggles, recognised speech, skips and timer expiries, the final transition left out,
the number of answers is currentQuestion; and no such event, the final transition left out,
decreases currentQuestion or moves it past questions.length - 1. -/
theorem C11_answers_match_index (qs : List String) (id : Option String)
    (es : List RoomEvent) (s : App)
    (h : sessionRun (freshSession qs id) es = some s) :
    s.answers.length = s.currentQuestion ∧
    (qs ≠ [] → (s.currentQuestion : Int) ≤ (s.questions.length : Int) - 1) ∧
    ∀ e, endsSession s e = false →
      s.currentQuestion ≤ (roomStep s e).currentQuestion ∧
      ((roomStep s e).currentQuestion ≠ s.currentQuestion →
        ((roomStep s e).currentQuestion : Int) ≤ ((roomStep s e).questions.length : Int) - 1) ∧
      (qs ≠ [] →
        ((roomStep s e).currentQuestion : Int) ≤ ((roomStep s e).questions.length : Int) - 1) := by
  have hs := inSession_sessionRun qs es _ s (inSession_fresh qs id) h
  obtain ⟨hq, ha, hb⟩ := hs
  refine ⟨ha, fun hne => ?_, fun e he => ?_⟩
  · have := hb hne
    rw [hq]; omega
  · obtain ⟨hq', _, hb'⟩ := inSession_step qs s e ⟨hq, ha, hb⟩ he
    obtain ⟨_, hcase⟩ := roomStep_inSession s e he
    refine ⟨?_, fun hchg => ?_, fun hne => ?_⟩
    · rcases hcase with ⟨hc, _⟩ | ⟨_, hc, _⟩ <;> omega
    · rcases hcase with ⟨hc, _⟩ | ⟨hlt, hc, _⟩
      · exact absurd hc hchg
      · rw [hq', hc, ← hq]; omega
    · have := hb' hne
      rw [hq']; omega

/-- C11 on a session of two questions: a second passes, the recording is switched on, speech
is recognised, and the first question is skipped. -/
theorem C11_answers_match_index_witness :
    (roomRun (freshSession ["Q0", "Q1"] none)
        [RoomEvent.second, RoomEvent.toggleRecording, RoomEvent.heard "hello",
          RoomEvent.skip]).answers.length
      = (roomRun (freshSession ["Q0", "Q1"] none)
          [RoomEvent.second, RoomEvent.toggleRecording, RoomEvent.heard "hello",
            RoomEvent.skip]).currentQuestion ∧
    (roomRun (freshSession ["Q0", "Q1"] none)
        [RoomEvent.second, RoomEvent.toggleRecording, RoomEvent.heard "hello",
          RoomEvent.skip]).currentQuestion = 1 :=
  ⟨(C11_answers_match_index ["Q0", "Q1"] none
      [RoomEvent.second, RoomEvent.toggleRecording, RoomEvent.heard "hello", RoomEvent.skip]
      (roomRun (freshSession ["Q0", "Q1"] none)
        [RoomEvent.second, RoomEvent.toggleRecording, RoomEvent.heard "hello",
          RoomEvent.skip])
      (by decide)).1,
    by decide⟩

/-- C12: the tick takes r seconds to r - 1 when r > 0 and to 0 when r = 0; and from a state
with timeLeft = 40, after any seconds of the timer, recording toggles, recognised speech,
skips and timer expiries, timeLeft is at least 0 and at most 40. -/
theorem C12_timer_bounds (s0 : App) (es : List RoomEvent) (h : s0.timeLeft = 40) :
    (∀ s : App, (s.timeLeft > 0 → (tick s).timeLeft = s.timeLeft - 1) ∧
      (s.timeLeft = 0 → (tick s).timeLeft = 0)) ∧
    0 ≤ (roomRun s0 es).timeLeft ∧ (roomRun s0 es).timeLeft ≤ 40 := by
  refine ⟨fun s => ⟨fun hpos => ?_, fun hz => ?_⟩, ?_⟩
  · simp [tick, tickValue, hpos]
  · simp [tick, tickValue, hz]
  · exact roomRun_timeLeft es s0 (by omega) (by omega)

/-- C12 on a session of two questions: forty-one seconds, the first expiry among them, and a
skip. -/
theorem C12_timer_bounds_witness :
    (∀ s : App, (s.timeLeft > 0 → (tick s).timeLeft = s.timeLeft - 1) ∧
      (s.timeLeft = 0 → (tick s).timeLeft = 0)) ∧
    0 ≤ (roomRun (freshSession ["Q0", "Q1"] none)
        (List.replicate 41 RoomEvent.second ++ [RoomEvent.skip])).timeLeft ∧
    (roomRun (freshSession ["Q0", "Q1"] none)
        (List.replicate 41 RoomEvent.second ++ [RoomEvent.skip])).timeLeft ≤ 40 :=
  C12_timer_bounds (freshSession ["Q0", "Q1"] none)
    (List.replicate 41 RoomEvent.second ++ [RoomEvent.skip]) (by decide)

/-- C13: the timer effect calls handleAutoSubmit only in a render with timeLeft = 0; a second
of the timer calls it once when the tick brings timeLeft to 0 and not at all otherwise, so
not again while timeLeft stays 0; and after a skip before the last question, at timeLeft > 0
or not, timeLeft is 40, none of the next 39 seconds calls it, and they leave one second on the
timer and the index and the answers as the skip left them. -/
theorem C13_expiry_fires_once (s : App)
    (hn : s.currentQuestion + 1 < s.questions.length) :
    (∀ u : App, timerEffect u ≠ [] → u.timeLeft = 0) ∧
    (∀ u : App, secondCalls u =
      if u.timeLeft ≠ 0 ∧ (tick u).timeLeft = 0 then handleAutoSubmit (tick u) else []) ∧
    (∀ u : App, (savedAnswers (handleAutoSubmit u)).length = 1) ∧
    (∀ u : App, u.timeLeft = 0 → secondCalls u = []) ∧
    (run (handleSkip s) s).timeLeft = 40 ∧
    (∀ k, k < 39 → secondCalls (seconds k (run (handleSkip s) s)) = []) ∧
    (seconds 39 (run (handleSkip s) s)).timeLeft = 1 ∧
    (seconds 39 (run (handleSkip s) s)).currentQuestion = s.currentQuestion + 1 ∧
    (seconds 39 (run (handleSkip s) s)).answers = (run (handleSkip s) s).answers := by
  have hnl : notLast s = true := (notLast_iff s).mpr hn
  have hrun := run_handler_notLast s Trigger.skip hnl
  simp only [handlerOf] at hrun
  have h40 : (run (handleSkip s) s).timeLeft = 40 := by rw [hrun]
  refine ⟨fun u hu => ?_, secondCalls_eq, fun u => ?_, fun u hu => ?_, h40,
    fun k hk => ?_, ?_, ?_, ?_⟩
  · by_contra h0
    exact hu (by simp [timerEffect, h0])
  · have := savedAnswers_handler u Trigger.timerExpiry
    simp only [handlerOf] at this
    rw [this]; rfl
  · rw [secondCalls_eq]; simp [hu]
  · have hlt : (k : Int) < (run (handleSkip s) s).timeLeft := by rw [h40]; omega
    rw [seconds_countdown k _ hlt]
    apply (second_countdown _ _).1
    simp only [h40]
    omega
  · rw [seconds_countdown 39 _ (by rw [h40]; decide)]
    simp only [h40]
    decide
  · rw [seconds_countdown 39 _ (by rw [h40]; decide), hrun]
  · rw [seconds_countdown 39 _ (by rw [h40]; decide)]

/-- C13 on a session of two questions, with a skip of the first question after five
seconds. -/
theorem C13_expiry_fires_once_witness :
    (seconds 5 (freshSession ["Q0", "Q1"] none)).timeLeft = 35 ∧
    (run (handleSkip (seconds 5 (freshSession ["Q0", "Q1"] none)))
      (seconds 5 (freshSession ["Q0", "Q1"] none))).timeLeft = 40 ∧
    (∀ k, k < 39 →
      secondCalls
        (seconds k
          (run (handleSkip (seconds 5 (freshSession ["Q0", "Q1"] none)))
            (seconds 5 (freshSession ["Q0", "Q1"] none)))) = []) ∧
    (seconds 39
      (run (handleSkip (seconds 5 (freshSession ["Q0", "Q1"] none)))
        (seconds 5 (freshSession ["Q0", "Q1"] none)))).currentQuestion = 0 + 1 :=
  have key := C13_expiry_fires_once (seconds 5 (freshSession ["Q0", "Q1"] none))
    (by decide)
  ⟨by decide, key.2.2.2.2.1, key.2.2.2.2.2.1, key.2.2.2.2.2.2.2.1⟩

/-- C14, evaluated on a failure that carries the message "resume text required". The
notification handleStartInterview shows is the fixed text "Failed to generate questions.
Please try again."; the message of the failure goes to console.error only. The claim requires
the notification to be the message itself. -/
theorem C14_notification_is_fixed_text :
    alerts
        (handleStartInterview
          { initialApp with route := "/dashboard", resumeText := "my resume" }
          (some "user@example.com") (Except.error "resume text required"))
      = ["Failed to generate questions. Please try again."] ∧
    "resume text required" ∉
      alerts
        (handleStartInterview
          { initialApp with route := "/dashboard", resumeText := "my resume" }
          (some "user@example.com") (Except.error "resume text required")) ∧
    Call.consoleError "resume text required" ∈
      handleStartInterview
        { initialApp with route := "/dashboard", resumeText := "my resume" }
        (some "user@example.com") (Except.error "resume text required") := by
  decide

/-- C15: when the generateQuestions request of handleStartInterview fails, whatever the error,
the handler runs to its end (its last call is the setGeneratingQuestions(false) of the finally
block), shows exactly one notification, navigates nowhere, and leaves the questions, the
interviewId and the route as they were, with generatingQuestions = false. -/
theorem C15_failure_is_caught (s : App) (email : Option String) (e : String)
    (h : s.resumeText ≠ "") :
    (handleStartInterview s email (Except.error e)).getLast?
      = some (Call.setGeneratingQuestions false) ∧
    (alerts (handleStartInterview s email (Except.error e))).length = 1 ∧
    navigations (handleStartInterview s email (Except.error e)) = [] ∧
    (run (handleStartInterview s email (Except.error e)) s).route = s.route ∧
    (run (handleStartInterview s email (Except.error e)) s).questions = s.questions ∧
    (run (handleStartInterview s email (Except.error e)) s).interviewId = s.interviewId ∧
    (run (handleStartInterview s email (Except.error e)) s).generatingQuestions = false := by
  simp [handleStartInterview, h, alerts, navigations, run, apply]

/-- C15 on the dashboard with a resume uploaded, for a network error. -/
theorem C15_failure_is_caught_witness :
    (handleStartInterview { initialApp with route := "/dashboard", resumeText := "my resume" }
        none (Except.error "Network Error")).getLast?
      = some (Call.setGeneratingQuestions false) ∧
    (alerts
      (handleStartInterview { initialApp with route := "/dashboard", resumeText := "my resume" }
        none (Except.error "Network Error"))).length = 1 ∧
    navigations
      (handleStartInterview { initialApp with route := "/dashboard", resumeText := "my resume" }
        none (Except.error "Network Error")) = [] ∧
    (run
      (handleStartInterview { initialApp with route := "/dashboard", resumeText := "my resume" }
        none (Except.error "Network Error"))
      { initialApp with route := "/dashboard", resumeText := "my resume" }).route
      = "/dashboard" ∧
    (run
      (handleStartInterview { initialApp with route := "/dashboard", resumeText := "my resume" }
        none (Except.error "Network Error"))
      { initialApp with route := "/dashboard", resumeText := "my resume" }).questions
      = defaultQuestions ∧
    (run
      (handleStartInterview { initialApp with route := "/dashboard", resumeText := "my resume" }
        none (Except.error "Network Error"))
      { initialApp with route := "/dashboard", resumeText := "my resume" }).interviewId
      = none ∧
    (run
      (handleStartInterview { initialApp with route := "/dashboard", resumeText := "my resume" }
        none (Except.error "Network Error"))
      { initialApp with route := "/dashboard", resumeText := "my resume" }).generatingQuestions
      = false :=
  C15_failure_is_caught { initialApp with route := "/dashboard", resumeText := "my resume" }
    none "Network Error" (by decide)

/-- C16: toggleRecording issues one call, stopListening exactly when capture is listening and
startListening exactly when it is not; it never issues resetTranscript, and after it the
transcript, the answers, currentQuestion and timeLeft are as before. -/
theorem C16_recording_is_a_toggle (s : App) :
    (Call.stopListening ∈ toggleRecording s ↔ s.isListening = true) ∧
    (Call.startListening ∈ toggleRecording s ↔ s.isListening = false) ∧
    (toggleRecording s).length = 1 ∧
    Call.resetTranscript ∉ toggleRecording s ∧
    (run (toggleRecording s) s).transcript = s.transcript ∧
    (run (toggleRecording s) s).answers = s.answers ∧
    (run (toggleRecording s) s).currentQuestion = s.currentQuestion ∧
    (run (toggleRecording s) s).timeLeft = s.timeLeft := by
  cases hl : s.isListening <;>
    simp [toggleRecording, run, apply, applyCapture, hl]

/-- C17, evaluated on the requests the pages issue. Dashboard.js and FeedbackReport.js import
interviewAPI from services/interviewAPI.js, whose requests are plain axios.post calls with no
timeout option; the timeout of 30000 ms belongs to the axiosInstance of services/api.js, whose
generateQuestions and submitAnswers, on the same addresses, no page imports. The claim requires
the calls of the pages to carry the 30 second timeout. -/
theorem C17_page_requests_carry_no_timeout :
    requests
        (handleStartInterview
          { initialApp with route := "/dashboard", resumeText := "my resume" }
          (some "user@example.com") (Except.error "no response"))
      = [interviewAPI.generateQuestions] ∧
    requests
        (fetchFeedback
          { freshSession ["Q0"] (some "id") with answers := [⟨some "Q0", "a"⟩] }
          (Except.error "no response"))
      = [interviewAPI.submitAnswers] ∧
    interviewAPI.generateQuestions.timeout = none ∧
    interviewAPI.submitAnswers.timeout = none ∧
    api.generateQuestions.timeout = some 30000 ∧
    api.submitAnswers.timeout = some 30000 ∧
    api.generateQuestions.url = interviewAPI.generateQuestions.url ∧
    api.submitAnswers.url = interviewAPI.submitAnswers.url := by
  decide

/-- C18: with a non-empty transcript handleSkip and handleAutoSubmit issue the same calls, so
they leave the same state: the same answers, index, timer, transcript, listening flag and
route. -/
theorem C18_skip_equals_auto_submit (s : App) (h : s.transcript ≠ "") :
    handleSkip s = handleAutoSubmit s ∧
    run (handleSkip s) s = run (handleAutoSubmit s) s := by
  have hcalls : handleSkip s = handleAutoSubmit s := by
    simp [handleSkip, handleAutoSubmit, orElse, h]
  exact ⟨hcalls, by rw [hcalls]⟩

/-- C18 on the first and on the last question of a session, with the transcript
"three years". -/
theorem C18_skip_equals_auto_submit_witness :
    (handleSkip { freshSession ["Q0", "Q1"] none with transcript := "three years" }
        = handleAutoSubmit { freshSession ["Q0", "Q1"] none with transcript := "three years" } ∧
      run (handleSkip { freshSession ["Q0", "Q1"] none with transcript := "three years" })
          { freshSession ["Q0", "Q1"] none with transcript := "three years" }
        = run
          (handleAutoSubmit { freshSession ["Q0", "Q1"] none with transcript := "three years" })
          { freshSession ["Q0", "Q1"] none with transcript := "three years" }) ∧
    (run (handleSkip { freshSession ["Q0"] none with transcript := "three years" })
        { freshSession ["Q0"] none with transcript := "three years" }).route = "/feedback" :=
  ⟨C18_skip_equals_auto_submit
      { freshSession ["Q0", "Q1"] none with transcript := "three years" } (by decide),
    by decide⟩

/-- C19, evaluated on a walk through the pages from the initial state: the interview starts on
the questions A, B, C, two questions are skipped, the user logs out, and the interview starts
again on the questions N0, N1. Every list the service returned is non-empty, yet the state
reached has currentQuestion = 2 on a list of length 2, so questions[currentQuestion] is
undefined, where the claim requires currentQuestion < questions.length. -/
theorem C19_index_outside_questions :
    (pageRun initialApp
        [PageEvent.startInterview "my resume" (some "user@example.com")
            ⟨["A", "B", "C"], some "first"⟩,
          PageEvent.skip, PageEvent.skip, PageEvent.logout,
          PageEvent.startInterview "my resume" (some "user@example.com")
            ⟨["N0", "N1"], some "second"⟩]).questions = ["N0", "N1"] ∧
    (pageRun initialApp
        [PageEvent.startInterview "my resume" (some "user@example.com")
            ⟨["A", "B", "C"], some "first"⟩,
          PageEvent.skip, PageEvent.skip, PageEvent.logout,
          PageEvent.startInterview "my resume" (some "user@example.com")
            ⟨["N0", "N1"], some "second"⟩]).currentQuestion = 2 ∧
    (pageRun initialApp
        [PageEvent.startInterview "my resume" (some "user@example.com")
            ⟨["A", "B", "C"], some "first"⟩,
          PageEvent.skip, PageEvent.skip, PageEvent.logout,
          PageEvent.startInterview "my resume" (some "user@example.com")
            ⟨["N0", "N1"], some "second"⟩]).route = "/interview" ∧
    (pageRun initialApp
        [PageEvent.startInterview "my resume" (some "user@example.com")
            ⟨["A", "B", "C"], some "first"⟩,
          PageEvent.skip, PageEvent.skip, PageEvent.logout,
          PageEvent.startInterview "my resume" (some "user@example.com")
            ⟨["N0", "N1"], some "second"⟩]).questions[2]? = none := by
  decide

/-! ## Whole sessions -/

/-- Before the last advance the answers follow the questions: after N advances of a session
on more than N questions there are N answers, and answer k is an answer to question k. -/
theorem answers_follow_questions_before_last (qs : List String) (id : Option String)
    (as : List Advance) (h : as.length < qs.length) :
    (advances (freshSession qs id) as).answers.length = as.length ∧
    (advances (freshSession qs id) as).currentQuestion = as.length ∧
    ∀ k, k < as.length →
      ((advances (freshSession qs id) as).answers[k]?).map Answer.question = some qs[k]? := by
  obtain ⟨hc, _, ha, _, _⟩ := advances_inProgress qs id as h
  have hlen : (advances (freshSession qs id) as).answers.length = as.length := by
    have := congrArg List.length ha
    simpa [List.length_take, Nat.min_eq_left (Nat.le_of_lt h)] using this
  refine ⟨hlen, hc, fun k hk => ?_⟩
  have hget := congrArg (fun l => l[k]?) ha
  simp only [List.getElem?_map] at hget
  rw [hget, List.getElem?_take_of_lt hk]
  have hkq : k < qs.length := by omega
  simp [List.getElem?_eq_getElem hkq]

/-- The first two advances of a session on three questions. -/
theorem answers_follow_questions_before_last_witness :
    (advances (freshSession ["Q0", "Q1", "Q2"] none)
        [⟨Trigger.skip, "", true⟩, ⟨Trigger.timerExpiry, "b", false⟩]).answers.length = 2 ∧
    (advances (freshSession ["Q0", "Q1", "Q2"] none)
        [⟨Trigger.skip, "", true⟩, ⟨Trigger.timerExpiry, "b", false⟩]).currentQuestion = 2 ∧
    ∀ k, k < 2 →
      ((advances (freshSession ["Q0", "Q1", "Q2"] none)
          [⟨Trigger.skip, "", true⟩, ⟨Trigger.timerExpiry, "b", false⟩]).answers[k]?).map
          Answer.question
        = some ["Q0", "Q1", "Q2"][k]? :=
  answers_follow_questions_before_last ["Q0", "Q1", "Q2"] none
    [⟨Trigger.skip, "", true⟩, ⟨Trigger.timerExpiry, "b", false⟩] (by decide)

/-- Every completed session, on any questions and with any advances, reaches the feedback
view with no answers, and fetchFeedback redirects to the dashboard without a submitAnswers
request. -/
theorem completed_session_never_submits (qs : List String) (id : Option String)
    (as : List Advance) (outcome : Except String Report)
    (hne : qs ≠ []) (h : as.length = qs.length) :
    Ended (advances (freshSession qs id) as) ∧
    (advances (freshSession qs id) as).answers = [] ∧
    fetchFeedback (advances (freshSession qs id) as) outcome = [Call.navigate "/dashboard"] ∧
    submissions (fetchFeedback (advances (freshSession qs id) as) outcome) = [] := by
  obtain ⟨ha, _, _, hr⟩ := advances_completed qs id as hne h
  have hf : fetchFeedback (advances (freshSession qs id) as) outcome
      = [Call.navigate "/dashboard"] := by
    simp [fetchFeedback, ha]
  refine ⟨hr, ha, hf, ?_⟩
  rw [hf]; rfl

/-- A completed session on the five built-in questions. -/
theorem completed_session_never_submits_witness :
    Ended
      (advances (freshSession defaultQuestions none)
        [⟨Trigger.skip, "a", false⟩, ⟨Trigger.skip, "b", true⟩, ⟨Trigger.timerExpiry, "c", true⟩,
          ⟨Trigger.skip, "", false⟩, ⟨Trigger.timerExpiry, "e", false⟩]) ∧
    (advances (freshSession defaultQuestions none)
        [⟨Trigger.skip, "a", false⟩, ⟨Trigger.skip, "b", true⟩, ⟨Trigger.timerExpiry, "c", true⟩,
          ⟨Trigger.skip, "", false⟩, ⟨Trigger.timerExpiry, "e", false⟩]).answers = [] ∧
    fetchFeedback
        (advances (freshSession defaultQuestions none)
          [⟨Trigger.skip, "a", false⟩, ⟨Trigger.skip, "b", true⟩,
            ⟨Trigger.timerExpiry, "c", true⟩, ⟨Trigger.skip, "", false⟩,
            ⟨Trigger.timerExpiry, "e", false⟩])
        (Except.ok "report")
      = [Call.navigate "/dashboard"] ∧
    submissions
        (fetchFeedback
          (advances (freshSession defaultQuestions none)
            [⟨Trigger.skip, "a", false⟩, ⟨Trigger.skip, "b", true⟩,
              ⟨Trigger.timerExpiry, "c", true⟩, ⟨Trigger.skip, "", false⟩,
              ⟨Trigger.timerExpiry, "e", false⟩])
          (Except.ok "report"))
      = [] :=
  completed_session_never_submits defaultQuestions none
    [⟨Trigger.skip, "a", false⟩, ⟨Trigger.skip, "b", true⟩, ⟨Trigger.timerExpiry, "c", true⟩,
      ⟨Trigger.skip, "", false⟩, ⟨Trigger.timerExpiry, "e", false⟩]
    (Except.ok "report") (by decide) (by decide)

/-- An event of the pages keeps the index inside the questions, provided a start of the
interview finds the index at 0 and returns a non-empty list. The advances, End Interview and
Logout never move the index outside. -/
theorem index_stays_inside_questions (s : App) (e : PageEvent)
    (h : s.currentQuestion < s.questions.length)
    (hstart : ∀ resumeText email response,
      e = PageEvent.startInterview resumeText email response →
        s.currentQuestion = 0 ∧ response.questions ≠ []) :
    (pageStep s e).currentQuestion < (pageStep s e).questions.length := by
  have advance_case : ∀ t : Trigger,
      (run (handlerOf t s) s).currentQuestion < (run (handlerOf t s) s).questions.length := by
    intro t
    cases hn : notLast s
    · rw [run_handler_last s t hn]; simp only; omega
    · rw [run_handler_notLast s t hn]
      have := (notLast_iff s).mp hn
      simpa using this
  cases e with
  | startInterview resumeText email response =>
    obtain ⟨hc, hne⟩ := hstart resumeText email response rfl
    have hpos : 0 < response.questions.length := List.length_pos.mpr hne
    by_cases hr : resumeText = ""
    · simp [pageStep, handleStartInterview, hr, run, apply, h]
    · simp [pageStep, handleStartInterview, hr, run, apply, hc, hpos]
  | skip => exact advance_case Trigger.skip
  | timerExpiry => exact advance_case Trigger.timerExpiry
  | endInterview =>
    simp only [pageStep, handleEndInterview, resetInterview, run, apply, List.foldl,
      List.cons_append, List.nil_append]
    omega
  | logout =>
    simpa [pageStep, handleLogout, run, apply] using h

/-- The first start of the interview, from the state the application is loaded in. -/
theorem index_stays_inside_questions_witness :
    (pageStep initialApp
        (PageEvent.startInterview "my resume" none ⟨["A", "B", "C"], some "first"⟩)).currentQuestion
      < (pageStep initialApp
          (PageEvent.startInterview "my resume" none
            ⟨["A", "B", "C"], some "first"⟩)).questions.length :=
  index_stays_inside_questions initialApp
    (PageEvent.startInterview "my resume" none ⟨["A", "B", "C"], some "first"⟩)
    (by decide)
    (fun _ _ _ he => by cases he; exact ⟨rfl, by decide⟩)

end RoboHire
